import Mathlib

/-!
Shallow embedding of the WallpaperSite React frontend
(src/contexts/AuthContext.tsx, src/pages/ImageListing.tsx,
src/pages/Categories.tsx, src/pages/ImageUpload.tsx).

Pure state-transition functions model the page components' handlers; the
asynchronous HTTP round trips are modelled by passing the resolved outcome
(success body or error payload) to the handler that consumes it.  JavaScript
numbers that hold page counts are modelled as `Int`; file sizes as `Nat`;
`localStorage.getItem` as `Option String` (`none` = key absent).
-/

/-! ## Session store: src/contexts/AuthContext.tsx -/

/-- JavaScript truthiness of a string (`!!token`): the empty string is falsy,
every other string is truthy.  `null` is handled by `Option` at call sites. -/
def jsTruthy (s : String) : Bool := s ≠ ""

/-- State of the `AuthProvider`: the persisted `jwt_token` entry of
`localStorage` (`none` when the key is absent) together with the
`isAuthenticated` React state. -/
structure AuthState where
  storage : Option String
  isAuthenticated : Bool
deriving DecidableEq, Repr

/-- The mount effect of `AuthProvider` (AuthContext.tsx lines 14-17): reads
`localStorage.getItem('jwt_token')` and seeds `isAuthenticated` with `!!token`
(`null` and the empty string are both falsy). -/
def authInit (persisted : Option String) : AuthState :=
  { storage := persisted
    isAuthenticated := match persisted with
      | some t => jsTruthy t
      | none => false }

/-- Source `login(token)` (AuthContext.tsx lines 19-22): `localStorage.setItem`
followed by `setIsAuthenticated(true)`. -/
def login (t : String) (_s : AuthState) : AuthState :=
  { storage := some t, isAuthenticated := true }

/-- Source `logout()` (AuthContext.tsx lines 24-27): `localStorage.removeItem`
followed by `setIsAuthenticated(false)`. -/
def logout (_s : AuthState) : AuthState :=
  { storage := none, isAuthenticated := false }

/-- The operations that mutate the session store after initialization. -/
inductive AuthOp where
  | login (t : String)
  | logout
deriving DecidableEq, Repr

/-- One session-store operation applied to a state. -/
def authStep (s : AuthState) (op : AuthOp) : AuthState :=
  match op with
  | .login t => login t s
  | .logout => logout s

/-- A sequence of login/logout operations applied in order. -/
def authRun (s : AuthState) (ops : List AuthOp) : AuthState :=
  ops.foldl authStep s

/-- The invariant claimed by the spec: `isAuthenticated` is true exactly when
a token is present in persisted storage. -/
def authInv (s : AuthState) : Prop :=
  s.isAuthenticated = s.storage.isSome

instance (s : AuthState) : Decidable (authInv s) := by
  unfold authInv; infer_instance

/-! ## Image listing: src/pages/ImageListing.tsx -/

/-- The `Category` interface shared by ImageListing.tsx, Categories.tsx and
the category options of ImageUpload.tsx. -/
structure Category where
  _id : String
  name : String
deriving DecidableEq, Repr

/-- The `Image` interface of ImageListing.tsx (lines 9-19). -/
structure Image where
  _id : String
  title : String
  category : Category
  imageUrl : String
  publicId : String
  createdAt : Option String
deriving DecidableEq, Repr

/-- The `Pagination` interface of ImageListing.tsx (lines 26-35). -/
structure Pagination where
  currentPage : Int
  totalPages : Int
  totalRecords : Int
  limit : Int
  hasNextPage : Bool
  hasPrevPage : Bool
  nextPage : Option Int
  prevPage : Option Int
deriving DecidableEq, Repr

/-- The JSON body of a 2xx `GET /images` response as `fetchImages` inspects
it: the `success` flag, the `data` field (`some` when it is an array, `none`
when absent or not an array), and the optional `pagination` object. -/
structure ListResponse where
  success : Bool
  data : Option (List Image)
  pagination : Option Pagination
deriving DecidableEq, Repr

/-- The React state of the `ImageListing` component (lines 38-50). -/
structure ListingState where
  images : List Image
  categories : List Category
  loading : Bool
  error : String
  selectedCategory : String
  deletingId : Option String
  showDeleteModal : Bool
  imageToDelete : Option Image
  currentPage : Int
  pagination : Option Pagination
deriving DecidableEq, Repr

/-- The initial state of `ImageListing` (the `useState` initializers). -/
def initListingState : ListingState :=
  { images := []
    categories := []
    loading := true
    error := ""
    selectedCategory := "All"
    deletingId := none
    showDeleteModal := false
    imageToDelete := none
    currentPage := 1
    pagination := none }

/-- The fixed page size `const limit = 10` (ImageListing.tsx line 50). -/
def limit : Int := 10

/-- Query parameters built by `fetchImages` (lines 88-97): `page` and `limit`
always, plus `category` when the selected category is not `"All"`. -/
def buildParams (s : ListingState) : List (String × String) :=
  [("page", toString s.currentPage), ("limit", toString limit)] ++
    (if s.selectedCategory = "All" then [] else [("category", s.selectedCategory)])

/-- The dependency array `[selectedCategory, currentPage]` of the effect that
triggers `fetchImages` (lines 78-80); the effect re-runs exactly when this
pair changes. -/
def pageDeps (s : ListingState) : String × Int :=
  (s.selectedCategory, s.currentPage)

/-- Source `handleCategoryChange` (lines 141-144): set the selected category and
reset the current page to 1. -/
def handleCategoryChange (categoryId : String) (s : ListingState) : ListingState :=
  { s with selectedCategory := categoryId, currentPage := 1 }

/-- Source `handlePageChange` (lines 149-154): update `currentPage` only when
`newPage >= 1 && pagination && newPage <= pagination.totalPages`; otherwise
leave the state untouched. -/
def handlePageChange (newPage : Int) (s : ListingState) : ListingState :=
  match s.pagination with
  | some p => if 1 ≤ newPage ∧ newPage ≤ p.totalPages then { s with currentPage := newPage } else s
  | none => s

/-- JavaScript `String.prototype.trim()`: the string with leading and
trailing whitespace removed, written over the character list so that it
reduces inside the kernel. -/
def String.jsTrim (s : String) : String :=
  ⟨((s.data.dropWhile Char.isWhitespace).reverse.dropWhile Char.isWhitespace).reverse⟩

/-- JavaScript `a || b` for strings: `b` when `a` is the (falsy) empty
string, otherwise `a`. -/
def jsOr (a b : String) : String :=
  if a = "" then b else a

/-- JavaScript `a?.b || c` for an optional string `a`: absent or empty falls
through to the fallback. -/
def optOr (a : Option String) (b : String) : String :=
  match a with
  | some m => jsOr m b
  | none => b

/-- The success branch of `fetchImages` applied to a resolved 2xx body
(lines 83-126 and 133-135): `setLoading(true); setError('')` first, then if
`response.data.success` is truthy, replace `images` with the `data` array
(`[]` when `data` is not an array) and replace `pagination` only when the
body carries one; a falsy `success` sets the unexpected-structure error; in
all cases `loading` ends false. -/
def applyFetchResponse (s : ListingState) (r : ListResponse) : ListingState :=
  let s0 := { s with loading := true, error := "" }
  if r.success then
    let s1 := match r.data with
      | some imgs => { s0 with images := imgs }
      | none => { s0 with images := [] }
    let s2 := match r.pagination with
      | some p => { s1 with pagination := some p }
      | none => s1
    { s2 with loading := false }
  else
    { s0 with error := "Unexpected response from server", loading := false }

/-- Resolution of one `fetchImages` round trip: `ok` carries the parsed 2xx
body, `err` carries the thrown error's optional `response.data.message` and
its `message`. -/
inductive FetchOutcome where
  | ok (r : ListResponse)
  | err (serverMsg : Option String) (errMsg : String)
deriving DecidableEq, Repr

/-- One complete `fetchImages` call (lines 82-136).  The catch block computes
`err.response?.data?.message || err.message || 'Failed to fetch images'` and
stores it in `error`; `images`, `pagination`, `currentPage` and
`selectedCategory` are untouched on the error path. -/
def doFetch (s : ListingState) (o : FetchOutcome) : ListingState :=
  match o with
  | .ok r => applyFetchResponse s r
  | .err sm em => { s with loading := false, error := optOr sm (jsOr em "Failed to fetch images") }

/-- The image list rendered by the component (lines 275-304): the loading
spinner and the error view take precedence over the grid, so no images are
displayed while `loading` is set or `error` is nonempty. -/
def displayedImages (s : ListingState) : List Image :=
  if s.loading then [] else if s.error ≠ "" then [] else s.images

/-- The events that drive the `ImageListing` controller: filter changes,
page changes, resolutions of effect-triggered fetches, and the delete-modal
flow (`handleDeleteClick`, `cancelDelete`, `confirmDelete` with the delete
request succeeding and the follow-up refetch resolving, or the delete
request failing). -/
inductive Ev where
  | categoryChange (c : String)
  | pageChange (n : Int)
  | fetch (o : FetchOutcome)
  | deleteClick (img : Image)
  | cancelDelete
  | confirmDeleteOk (o : FetchOutcome)
  | confirmDeleteErr (serverMsg : Option String)
deriving DecidableEq, Repr

/-- One controller event applied to a state.  `confirmDelete`
(lines 167-187) returns immediately when `imageToDelete` is null; on a
successful DELETE it awaits `fetchImages()` (which never throws: it catches
internally) and then closes the modal; on a failed DELETE it sets the
page-level error and closes the modal; `deletingId` is reset in `finally`. -/
def lstep (s : ListingState) (e : Ev) : ListingState :=
  match e with
  | .categoryChange c => handleCategoryChange c s
  | .pageChange n => handlePageChange n s
  | .fetch o => doFetch s o
  | .deleteClick img => { s with imageToDelete := some img, showDeleteModal := true }
  | .cancelDelete => { s with showDeleteModal := false, imageToDelete := none }
  | .confirmDeleteOk o =>
      match s.imageToDelete with
      | none => s
      | some img =>
          let s1 := { s with deletingId := some img._id }
          let s2 := doFetch s1 o
          { s2 with showDeleteModal := false, imageToDelete := none, deletingId := none }
  | .confirmDeleteErr sm =>
      match s.imageToDelete with
      | none => s
      | some _ =>
          { s with error := optOr sm "Failed to delete image",
                   showDeleteModal := false, imageToDelete := none, deletingId := none }

/-- A sequence of controller events applied in order. -/
def lrun (s : ListingState) (evs : List Ev) : ListingState :=
  evs.foldl lstep s

/-- The pagination invariant claimed by the spec: whenever the last-fetched
pagination has `totalRecords > 0`, `currentPage` lies in `[1, totalPages]`. -/
def pageInvariant (s : ListingState) : Prop :=
  ∀ p, s.pagination = some p → 0 < p.totalRecords →
    1 ≤ s.currentPage ∧ s.currentPage ≤ p.totalPages

/-! ## Category management: src/pages/Categories.tsx -/

/-- The two shapes a 2xx `GET /categories` body can take: an enveloped
object whose `data` field holds the array, or the bare array itself. -/
inductive CatBody where
  | envel (cats : List Category)
  | bareArr (cats : List Category)
deriving DecidableEq, Repr

/-- The decoding performed by `fetchCategories` in Categories.tsx
(lines 43-47) and identically in ImageListing.tsx (lines 64-68):
`res.data?.data` is truthy for the enveloped shape (an array, even empty, is
truthy in JavaScript), and `Array.isArray(res.data)` catches the bare
shape. -/
def decodeCategoriesBody : CatBody → List Category
  | .envel cats => cats
  | .bareArr cats => cats

/-- The decoding performed by `fetchCategories` in ImageUpload.tsx
(line 87): `setCategories(res.data.data)` with no array fallback, so a bare
array body leaves `res.data.data` undefined (`none`). -/
def uploadDecodeCategories : CatBody → Option (List Category)
  | .envel cats => some cats
  | .bareArr _ => none

/-- The `modalMode` state of `CategoryManagement`. -/
inductive ModalMode where
  | create
  | edit
deriving DecidableEq, Repr

/-- The React state of the `CategoryManagement` component
(Categories.tsx lines 14-29). -/
structure CatState where
  categories : List Category
  loading : Bool
  error : String
  showModal : Bool
  modalMode : ModalMode
  editingCategory : Option Category
  categoryName : String
  modalLoading : Bool
  modalError : String
  showDeleteModal : Bool
  categoryToDelete : Option Category
  deleteLoading : Bool
deriving DecidableEq, Repr

/-- Resolution of one category-list round trip. -/
inductive CatFetchOutcome where
  | ok (body : CatBody)
  | err (serverMsg : Option String)
deriving DecidableEq, Repr

/-- Resolution of one mutation request (create/update/delete): on success it
carries the outcome of the follow-up `fetchCategories()` refetch. -/
inductive ReqOutcome where
  | ok (refetch : CatFetchOutcome)
  | err (serverMsg : Option String)
deriving DecidableEq, Repr

/-- Source `fetchCategories` in Categories.tsx (lines 36-54): loading on, error
cleared, then either the decoded list replaces `categories` or the error
message is set; loading ends false. -/
def fetchCategoriesStep (s : CatState) (o : CatFetchOutcome) : CatState :=
  let s0 := { s with loading := true, error := "" }
  match o with
  | .ok body => { s0 with categories := decodeCategoriesBody body, loading := false }
  | .err sm => { s0 with error := optOr sm "Failed to fetch categories", loading := false }

/-- Source `closeModal` (Categories.tsx lines 75-80). -/
def closeModal (s : CatState) : CatState :=
  { s with showModal := false, categoryName := "", editingCategory := none, modalError := "" }

/-- Source `closeDeleteModal` (Categories.tsx lines 118-121). -/
def closeDeleteModal (s : CatState) : CatState :=
  { s with showDeleteModal := false, categoryToDelete := none }

/-- The mutation request `handleSave` issues (lines 93-98): none when the
trimmed name is empty (validation guard) or when in edit mode with no
`editingCategory`; otherwise a POST (create) or PUT (edit) carrying the
trimmed name. -/
inductive CatRequest where
  | post (name : String)
  | put (id : String) (name : String)
deriving DecidableEq, Repr

/-- The request issued by one `handleSave` invocation. -/
def saveRequest (s : CatState) : Option CatRequest :=
  if s.categoryName.jsTrim = "" then none
  else match s.modalMode, s.editingCategory with
    | .create, _ => some (.post s.categoryName.jsTrim)
    | .edit, some c => some (.put c._id s.categoryName.jsTrim)
    | .edit, none => none

/-- Source `handleSave` (Categories.tsx lines 83-109): an empty trimmed name sets
the inline modal error and returns before any request; otherwise the
create/update request is issued and, on success, `fetchCategories()` is
awaited (it never throws) and the modal closed, while on failure the server
message (or the generic fallback) is shown in the still-open modal;
`modalLoading` is reset in `finally`. -/
def handleSave (s : CatState) (o : ReqOutcome) : CatState :=
  if s.categoryName.jsTrim = "" then { s with modalError := "Category name is required" }
  else
    let s1 := { s with modalLoading := true, modalError := "" }
    match o with
    | .ok ro => { closeModal (fetchCategoriesStep s1 ro) with modalLoading := false }
    | .err sm => { s1 with modalError := optOr sm "Failed to save category", modalLoading := false }

/-- Source `confirmDelete` in Categories.tsx (lines 124-140): returns immediately
when `categoryToDelete` is null; on a successful DELETE it refetches and
closes the delete modal; on a failed DELETE it sets the page-level error and
also closes the delete modal; `deleteLoading` is reset in `finally`. -/
def confirmDeleteCat (s : CatState) (o : ReqOutcome) : CatState :=
  match s.categoryToDelete with
  | none => s
  | some _ =>
      let s1 := { s with deleteLoading := true }
      match o with
      | .ok ro => { closeDeleteModal (fetchCategoriesStep s1 ro) with deleteLoading := false }
      | .err sm =>
          { closeDeleteModal { s1 with error := optOr sm "Failed to delete category" } with
              deleteLoading := false }

/-! ## Image upload: src/pages/ImageUpload.tsx -/

/-- A selected browser `File`: its size in bytes and the data URL that
`FileReader.readAsDataURL` produces for it. -/
structure JsFile where
  name : String
  size : Nat
  dataUrl : String
deriving DecidableEq, Repr

/-- The React state of the `ImageUpload` component (lines 9-17).
`categories` is `Option`-valued because ImageUpload stores `res.data.data`
unchecked, which is undefined for a bare-array body. -/
structure UploadState where
  title : String
  category : String
  image : Option JsFile
  preview : String
  loading : Bool
  error : String
  success : Bool
  categories : Option (List Category)
deriving DecidableEq, Repr

/-- A network request the upload page can issue (`POST /images/upload`). -/
structure UploadRequest where
  title : String
  category : String
  file : JsFile
deriving DecidableEq, Repr

/-- Source `handleImageChange` (ImageUpload.tsx lines 20-35), paired with the list
of network requests it issues (always none: the handler only validates and
stages the file).  An absent file does nothing; a file larger than
`10 * 1024 * 1024` bytes sets the size error and returns before touching any
other state; otherwise the file is staged, the preview set from the reader
result, and the error cleared. -/
def handleImageChange (s : UploadState) (file : Option JsFile) :
    UploadState × List UploadRequest :=
  match file with
  | none => (s, [])
  | some f =>
      if 10 * 1024 * 1024 < f.size then
        ({ s with error := "File size must be less than 10MB" }, [])
      else
        ({ s with image := some f, preview := f.dataUrl, error := "" }, [])

/-! ## Concrete example data used by witnesses and counterexamples -/

/-- A sample category. -/
def catEx : Category := { _id := "c1", name := "Nature" }

/-- A sample image. -/
def imgEx : Image :=
  { _id := "i1", title := "Sunset", category := catEx, imageUrl := "https://img/1",
    publicId := "p1", createdAt := none }

/-- Pagination of a 15-record listing split over 2 pages. -/
def paginationA : Pagination :=
  { currentPage := 1, totalPages := 2, totalRecords := 15, limit := 10,
    hasNextPage := true, hasPrevPage := false, nextPage := some 2, prevPage := none }

/-- Pagination of the same listing after it shrank to 5 records on 1 page. -/
def paginationB : Pagination :=
  { currentPage := 2, totalPages := 1, totalRecords := 5, limit := 10,
    hasNextPage := false, hasPrevPage := false, nextPage := none, prevPage := none }

/-- A successful first-page response. -/
def respA : ListResponse :=
  { success := true, data := some [imgEx], pagination := some paginationA }

/-- A successful response after the collection shrank below the current
page (what a refetch returns after deleting the last item of the last
page). -/
def respShrunk : ListResponse :=
  { success := true, data := some [], pagination := some paginationB }

/-- A listing state that has completed one successful fetch. -/
def listingStateEx : ListingState :=
  { initListingState with images := [imgEx], loading := false, pagination := some paginationA }

/-- A listing state with the delete confirmation modal open. -/
def listingStateDel : ListingState :=
  { listingStateEx with imageToDelete := some imgEx, showDeleteModal := true }

/-- A category-management state with the delete confirmation modal open. -/
def catStateEx : CatState :=
  { categories := [catEx], loading := false, error := "", showModal := false,
    modalMode := .create, editingCategory := none, categoryName := "",
    modalLoading := false, modalError := "", showDeleteModal := true,
    categoryToDelete := some catEx, deleteLoading := false }

/-- The same state with a valid (non-blank) name typed into the modal. -/
def catStateName : CatState := { catStateEx with categoryName := "Nature" }

/-- The same state with a whitespace-only name typed into the modal. -/
def whitespaceNameState : CatState := { catStateEx with categoryName := "   " }

/-- A file below the 10 MiB ceiling. -/
def smallFile : JsFile := { name := "ok.png", size := 1024, dataUrl := "data:ok" }

/-- A file one byte above the 10 MiB ceiling. -/
def bigFile : JsFile := { name := "big.png", size := 10 * 1024 * 1024 + 1, dataUrl := "data:big" }

/-- An upload-form state with a valid file already staged. -/
def uploadStateEx : UploadState :=
  { title := "Sunset", category := "c1", image := some smallFile, preview := "data:ok",
    loading := false, error := "", success := false, categories := some [catEx] }

/-! ## Helper lemmas -/

lemma authStep_inv (s : AuthState) (op : AuthOp) : authInv (authStep s op) := by
  cases op with
  | login t => rfl
  | logout => rfl

lemma authRun_inv (ops : List AuthOp) : ∀ s : AuthState, authInv s → authInv (authRun s ops) := by
  induction ops with
  | nil => intro s hs; exact hs
  | cons op rest ih => intro s _; exact ih (authStep s op) (authStep_inv s op)

lemma authInit_inv (s0 : Option String) (h : s0 ≠ some "") : authInv (authInit s0) := by
  rcases s0 with _ | t
  · rfl
  · have ht : t ≠ "" := fun he => h (by rw [he])
    show jsTruthy t = true
    simp [jsTruthy, ht]

lemma jsOr_ne_empty (a b : String) (hb : b ≠ "") : jsOr a b ≠ "" := by
  unfold jsOr
  split
  · exact hb
  · next h => exact h

lemma optOr_ne_empty (a : Option String) (b : String) (hb : b ≠ "") : optOr a b ≠ "" := by
  unfold optOr
  cases a with
  | some m => exact jsOr_ne_empty m b hb
  | none => exact hb

lemma displayedImages_eq_nil (s : ListingState) (h : s.error ≠ "") (hl : s.loading = false) :
    displayedImages s = [] := by
  unfold displayedImages
  rw [hl]
  simp [h]

/-- A list response is benign for a controller currently on page `page` when
any pagination it carries with a positive record count covers both that page
and page 1.  A well-behaved paginated backend satisfies this whenever the
requested page still exists; the delete-last-item-on-last-page scenario
violates it. -/
def goodResp (page : Int) (r : ListResponse) : Prop :=
  ∀ p, r.pagination = some p → 0 < p.totalRecords →
    page ≤ p.totalPages ∧ 1 ≤ p.totalPages

/-- Predicate `goodResp` lifted to a fetch outcome (errors are always benign). -/
def goodOutcome (page : Int) (o : FetchOutcome) : Prop :=
  match o with
  | .ok r => goodResp page r
  | .err _ _ => True

/-- An event is benign in a state when any response it delivers is. -/
def goodEv (s : ListingState) (e : Ev) : Prop :=
  match e with
  | .fetch o => goodOutcome s.currentPage o
  | .confirmDeleteOk o => goodOutcome s.currentPage o
  | _ => True

/-- Every response delivered along the trace is benign for the state in
which it lands. -/
def goodTrace : ListingState → List Ev → Prop
  | _, [] => True
  | s, e :: rest => goodEv s e ∧ goodTrace (lstep s e) rest

/-- The inductive invariant: the current page is at least 1, and the stored
pagination (when it counts records) bounds it above and admits page 1. -/
def listingInv (s : ListingState) : Prop :=
  1 ≤ s.currentPage ∧
    ∀ p, s.pagination = some p → 0 < p.totalRecords →
      s.currentPage ≤ p.totalPages ∧ 1 ≤ p.totalPages

lemma applyFetchResponse_currentPage (s : ListingState) (r : ListResponse) :
    (applyFetchResponse s r).currentPage = s.currentPage := by
  rcases r with ⟨su, da, pa⟩
  cases su <;> cases da <;> cases pa <;> rfl

lemma applyFetchResponse_pagination (s : ListingState) (r : ListResponse) :
    (applyFetchResponse s r).pagination = r.pagination ∨
    (applyFetchResponse s r).pagination = s.pagination := by
  rcases r with ⟨su, da, pa⟩
  cases su <;> cases da <;> cases pa <;> simp [applyFetchResponse]

lemma applyFetchResponse_inv (s : ListingState) (r : ListResponse)
    (hs : listingInv s) (hr : goodResp s.currentPage r) :
    listingInv (applyFetchResponse s r) := by
  obtain ⟨h1, h2⟩ := hs
  refine ⟨by rw [applyFetchResponse_currentPage]; exact h1, ?_⟩
  intro p hp hrec
  rw [applyFetchResponse_currentPage]
  rcases applyFetchResponse_pagination s r with h | h
  · exact hr p (by rw [← h]; exact hp) hrec
  · exact h2 p (by rw [← h]; exact hp) hrec

lemma doFetch_inv (s : ListingState) (o : FetchOutcome)
    (hs : listingInv s) (ho : goodOutcome s.currentPage o) :
    listingInv (doFetch s o) := by
  cases o with
  | ok r => exact applyFetchResponse_inv s r hs ho
  | err sm em => exact ⟨hs.1, hs.2⟩

lemma lstep_inv (s : ListingState) (e : Ev) (hs : listingInv s) (he : goodEv s e) :
    listingInv (lstep s e) := by
  cases e with
  | categoryChange c =>
      refine ⟨le_refl 1, ?_⟩
      intro p hp hrec
      have h := hs.2 p hp hrec
      exact ⟨h.2, h.2⟩
  | pageChange n =>
      show listingInv (handlePageChange n s)
      unfold handlePageChange
      rcases hp : s.pagination with _ | p
      · exact hs
      · dsimp only
        by_cases hc : 1 ≤ n ∧ n ≤ p.totalPages
        · rw [if_pos hc]
          refine ⟨hc.1, ?_⟩
          intro q hq hrec
          have hq' : some p = some q := hq
          injection hq' with hpq
          subst hpq
          exact ⟨hc.2, le_trans hc.1 hc.2⟩
        · rw [if_neg hc]
          exact hs
  | fetch o => exact doFetch_inv s o hs he
  | deleteClick img => exact ⟨hs.1, hs.2⟩
  | cancelDelete => exact ⟨hs.1, hs.2⟩
  | confirmDeleteOk o =>
      show listingInv (lstep s (.confirmDeleteOk o))
      unfold lstep
      rcases hi : s.imageToDelete with _ | img
      · exact hs
      · dsimp only
        have h2 := doFetch_inv { s with deletingId := some img._id, imageToDelete := some img } o
          ⟨hs.1, hs.2⟩ he
        exact ⟨h2.1, h2.2⟩
  | confirmDeleteErr sm =>
      show listingInv (lstep s (.confirmDeleteErr sm))
      unfold lstep
      rcases hi : s.imageToDelete with _ | img
      · exact hs
      · exact ⟨hs.1, hs.2⟩

lemma init_listingInv : listingInv initListingState := by
  refine ⟨le_refl 1, ?_⟩
  intro p hp
  cases hp

lemma goodTrace_inv (evs : List Ev) :
    ∀ s : ListingState, listingInv s → goodTrace s evs → listingInv (lrun s evs) := by
  induction evs with
  | nil => intro s hs _; exact hs
  | cons e rest ih =>
      intro s hs hg
      exact ih (lstep s e) (lstep_inv s e hs hg.1) hg.2

lemma handlePageChange_accept (n : Int) (s : ListingState) (p : Pagination)
    (hp : s.pagination = some p) (h1 : 1 ≤ n) (h2 : n ≤ p.totalPages) :
    handlePageChange n s = { s with currentPage := n } := by
  unfold handlePageChange
  split
  · next q hq =>
      rw [hp] at hq
      injection hq with he
      subst he
      rw [if_pos ⟨h1, h2⟩]
  · next hq =>
      rw [hp] at hq
      simp at hq

lemma handlePageChange_reject (n : Int) (s : ListingState)
    (h : n < 1 ∨ s.pagination = none ∨ (∃ p, s.pagination = some p ∧ p.totalPages < n)) :
    handlePageChange n s = s := by
  unfold handlePageChange
  split
  · next q hq =>
      rcases h with h | h | ⟨p, hp, hlt⟩
      · rw [if_neg (by omega : ¬(1 ≤ n ∧ n ≤ q.totalPages))]
      · rw [h] at hq
        simp at hq
      · rw [hp] at hq
        injection hq with he
        subst he
        rw [if_neg (by omega : ¬(1 ≤ n ∧ n ≤ p.totalPages))]
  · next hq => rfl

/-! ## Claim theorems -/

/-- C1, counterexample: the biconditional "isAuthenticated is true exactly
when a token is present in persisted storage" fails at initialization from a
persisted empty-string token (which `login("")` can have written): the token
is present, yet `!!token` seeds the flag to false. -/
theorem auth_empty_token_init_breaks_presence :
    ¬ authInv (authInit (some "")) ∧
    (authInit (some "")).storage.isSome = true ∧
    (authInit (some "")).isAuthenticated = false := by decide

/-- C1 (amended): `login(token)` writes the token and sets
`isAuthenticated` to true, `logout()` removes it and sets the flag to false,
and initialization seeds the flag from the persisted token's truthiness
(present and non-empty); consequently `isAuthenticated` equals token
presence in every state reachable after an initialization whose persisted
value is not the empty-string token. -/
theorem auth_flag_matches_token_presence (s0 : Option String) (ops : List AuthOp)
    (h : s0 ≠ some "") :
    authInv (authRun (authInit s0) ops) ∧
    (∀ t s, (login t s).storage = some t ∧ (login t s).isAuthenticated = true) ∧
    (∀ s, (logout s).storage = none ∧ (logout s).isAuthenticated = false) :=
  ⟨authRun_inv ops (authInit s0) (authInit_inv s0 h),
   fun _ _ => ⟨rfl, rfl⟩, fun _ => ⟨rfl, rfl⟩⟩

/-- C1 witness: the amended invariant instantiated on a concrete persisted
token and operation sequence (including a `login("")`). -/
theorem auth_flag_matches_token_presence_witness :
    (some "tok" ≠ some "") ∧
    authInv (authRun (authInit (some "tok")) [AuthOp.login "", AuthOp.logout]) :=
  ⟨by decide,
   (auth_flag_matches_token_presence (some "tok") [AuthOp.login "", AuthOp.logout]
      (by decide)).1⟩

/-- C2, counterexample: the claimed invariant "currentPage lies in
[1, totalPages] whenever totalRecords > 0" is not preserved by every
operation sequence: fetch page 1 of a two-page listing, move to page 2,
delete the only image there, and the delete-triggered refetch stores a
pagination with totalPages = 1 and totalRecords = 5 while currentPage stays
2 (the code never clamps the page after a refetch). -/
theorem currentPage_exceeds_totalPages_after_shrink :
    ¬ pageInvariant (lrun initListingState
      [Ev.fetch (FetchOutcome.ok respA), Ev.pageChange 2, Ev.deleteClick imgEx,
       Ev.confirmDeleteOk (FetchOutcome.ok respShrunk)]) := by
  intro h
  have h2 := h paginationB (by decide) (by decide)
  exact absurd h2.2 (by decide)

/-- C2 (amended): in every reachable state, `currentPage` lies in
`[1, totalPages]` of the last-fetched pagination whenever its
`totalRecords > 0`, provided every fetched response whose pagination counts
records still covers the page that was current when it landed (a condition a
shrinking collection can violate, as the counterexample shows). -/
theorem currentPage_in_range_of_good_responses (evs : List Ev)
    (h : goodTrace initListingState evs) :
    pageInvariant (lrun initListingState evs) := by
  have hinv := goodTrace_inv evs initListingState init_listingInv h
  intro p hp hrec
  exact ⟨hinv.1, (hinv.2 p hp hrec).1⟩

/-- C2 witness: the amended invariant on a concrete benign trace. -/
theorem currentPage_in_range_of_good_responses_witness :
    pageInvariant (lrun initListingState [Ev.fetch (FetchOutcome.ok respA)]) :=
  currentPage_in_range_of_good_responses [Ev.fetch (FetchOutcome.ok respA)]
    ⟨fun p hp _ => by
        have hp' : some paginationA = some p := hp
        injection hp' with hpq
        subst hpq
        exact ⟨by decide, by decide⟩,
      trivial⟩

/-- C3: `setPage(n)` leaves the whole controller state unchanged (so the
fetch-triggering dependency pair does not change and no fetch is issued)
when `n < 1`, when no pagination has been fetched yet, or when `n` exceeds
the last-fetched `totalPages`; when `1 <= n <= totalPages` it sets
`currentPage` to `n`, leaves the filter alone, and the re-fetch built from
the resulting state carries `page = n`. -/
theorem setPage_guard_semantics (n : Int) (s : ListingState) :
    ((n < 1 ∨ s.pagination = none ∨ (∃ p, s.pagination = some p ∧ p.totalPages < n)) →
      handlePageChange n s = s ∧ pageDeps (handlePageChange n s) = pageDeps s) ∧
    (∀ p, s.pagination = some p → 1 ≤ n → n ≤ p.totalPages →
      (handlePageChange n s).currentPage = n ∧
      (handlePageChange n s).selectedCategory = s.selectedCategory ∧
      List.lookup "page" (buildParams (handlePageChange n s)) = some (toString n)) := by
  constructor
  · intro h
    have hne := handlePageChange_reject n s h
    exact ⟨hne, by rw [hne]⟩
  · intro p hp h1 h2
    rw [handlePageChange_accept n s p hp h1 h2]
    exact ⟨rfl, rfl, rfl⟩

/-- C3 witness: on a state whose last pagination has 2 pages, `setPage 5` is
a no-op and `setPage 2` moves to page 2. -/
theorem setPage_guard_semantics_witness :
    handlePageChange 5 listingStateEx = listingStateEx ∧
    (handlePageChange 2 listingStateEx).currentPage = 2 :=
  ⟨((setPage_guard_semantics 5 listingStateEx).1
      (Or.inr (Or.inr ⟨paginationA, rfl, by decide⟩))).1,
   ((setPage_guard_semantics 2 listingStateEx).2 paginationA rfl (by decide) (by decide)).1⟩

/-- C4: for every category and every controller state,
`handleCategoryChange` sets the active filter to that category and resets
`currentPage` to 1, so the re-fetch built from the resulting state always
carries `page = 1`. -/
theorem setFilter_resets_page_to_one (c : String) (s : ListingState) :
    (handleCategoryChange c s).selectedCategory = c ∧
    (handleCategoryChange c s).currentPage = 1 ∧
    List.lookup "page" (buildParams (handleCategoryChange c s)) = some "1" :=
  ⟨rfl, rfl, rfl⟩

/-- C5: a successful list response (success flag set, `data` an array,
pagination present) makes `fetchImages` replace the whole image collection
and the pagination metadata with exactly the response's values — the result
does not depend on the previously held items or pagination, so nothing is
merged. -/
theorem fetch_success_full_replacement (s : ListingState) (r : ListResponse)
    (imgs : List Image) (p : Pagination)
    (hs : r.success = true) (hd : r.data = some imgs) (hp : r.pagination = some p) :
    (applyFetchResponse s r).images = imgs ∧
    (applyFetchResponse s r).pagination = some p ∧
    (applyFetchResponse s r).error = "" := by
  simp [applyFetchResponse, hs, hd, hp]

/-- C5 witness: full replacement on a concrete state and response. -/
theorem fetch_success_full_replacement_witness :
    (respShrunk.success = true ∧ respShrunk.data = some [] ∧
      respShrunk.pagination = some paginationB) ∧
    (applyFetchResponse listingStateEx respShrunk).images = [] :=
  ⟨⟨rfl, rfl, rfl⟩,
   (fetch_success_full_replacement listingStateEx respShrunk [] paginationB rfl rfl rfl).1⟩

/-- C6, counterexample: a failed fetch does not clear the controller's
collection state — after a network error the previously fetched image is
still stored (only the rendering hides it), contradicting "no previously
fetched images remain in the controller's collection state". -/
theorem fetch_failure_retains_collection_state :
    (doFetch listingStateEx (FetchOutcome.err none "Network Error")).images = [imgEx] ∧
    [imgEx] ≠ ([] : List Image) ∧
    (doFetch listingStateEx (FetchOutcome.err none "Network Error")).error = "Network Error" := by
  decide

/-- C6 (amended): a failed list request sets the (always nonempty) error
message and leaves the stored collection and pagination untouched; the view
nevertheless shows the empty error state because the error branch takes
rendering precedence over the grid. -/
theorem fetch_failure_error_display (s : ListingState) (sm : Option String) (em : String) :
    (doFetch s (FetchOutcome.err sm em)).error = optOr sm (jsOr em "Failed to fetch images") ∧
    (doFetch s (FetchOutcome.err sm em)).error ≠ "" ∧
    (doFetch s (FetchOutcome.err sm em)).images = s.images ∧
    (doFetch s (FetchOutcome.err sm em)).pagination = s.pagination ∧
    displayedImages (doFetch s (FetchOutcome.err sm em)) = [] := by
  have he : (doFetch s (FetchOutcome.err sm em)).error ≠ "" :=
    optOr_ne_empty sm _ (jsOr_ne_empty em _ (by decide))
  exact ⟨rfl, he, rfl, rfl, displayedImages_eq_nil _ he rfl⟩

/-- C7, counterexample: a failed category delete does not keep the
confirmation dialog open for retry — `confirmDelete` closes the delete
modal in its catch block and surfaces the message at page level. -/
theorem delete_failure_closes_dialog :
    catStateEx.showDeleteModal = true ∧
    (confirmDeleteCat catStateEx (ReqOutcome.err (some "boom"))).showDeleteModal = false ∧
    (confirmDeleteCat catStateEx (ReqOutcome.err (some "boom"))).error = "boom" := by
  decide

/-- C7 (amended): every create/update/delete mutation closes its
modal/dialog and replaces the list with a full refetch on success (no local
patch); on failure, create/update shows the server message (or the generic
fallback) inside the still-open modal, while the delete flows surface the
message as a page-level error and close the confirmation dialog. -/
theorem mutation_flow_modal_and_refetch (s : CatState) (sl : ListingState) (body : CatBody)
    (sm : Option String) (o : FetchOutcome) (c : Category) (img : Image)
    (hname : ¬ s.categoryName.jsTrim = "") (hdel : s.categoryToDelete = some c)
    (himg : sl.imageToDelete = some img) :
    ((handleSave s (ReqOutcome.ok (CatFetchOutcome.ok body))).showModal = false ∧
     (handleSave s (ReqOutcome.ok (CatFetchOutcome.ok body))).categories =
       decodeCategoriesBody body) ∧
    ((handleSave s (ReqOutcome.err sm)).showModal = s.showModal ∧
     (handleSave s (ReqOutcome.err sm)).modalError = optOr sm "Failed to save category") ∧
    ((confirmDeleteCat s (ReqOutcome.ok (CatFetchOutcome.ok body))).showDeleteModal = false ∧
     (confirmDeleteCat s (ReqOutcome.ok (CatFetchOutcome.ok body))).categories =
       decodeCategoriesBody body) ∧
    ((confirmDeleteCat s (ReqOutcome.err sm)).showDeleteModal = false ∧
     (confirmDeleteCat s (ReqOutcome.err sm)).error = optOr sm "Failed to delete category") ∧
    (lstep sl (Ev.confirmDeleteOk o)).showDeleteModal = false ∧
    ((lstep sl (Ev.confirmDeleteErr sm)).showDeleteModal = false ∧
     (lstep sl (Ev.confirmDeleteErr sm)).error = optOr sm "Failed to delete image") := by
  refine ⟨⟨?_, ?_⟩, ⟨?_, ?_⟩, ⟨?_, ?_⟩, ⟨?_, ?_⟩, ?_, ⟨?_, ?_⟩⟩ <;>
    simp [handleSave, hname, confirmDeleteCat, hdel, lstep, himg,
      fetchCategoriesStep, closeModal, closeDeleteModal]

/-- C7 witness: the amended behaviors instantiated on concrete states. -/
theorem mutation_flow_modal_and_refetch_witness :
    (¬ catStateName.categoryName.jsTrim = "") ∧
    catStateName.categoryToDelete = some catEx ∧
    listingStateDel.imageToDelete = some imgEx ∧
    (handleSave catStateName (ReqOutcome.err (some "boom"))).showModal =
      catStateName.showModal :=
  ⟨by decide, by decide, by decide,
   (mutation_flow_modal_and_refetch catStateName listingStateDel (CatBody.envel [catEx])
      (some "boom") (FetchOutcome.err none "x") catEx imgEx
      (by decide) (by decide) (by decide)).2.1.1⟩

/-- C8, counterexample: not every consumer of the category-list endpoint
tolerates both response shapes — ImageUpload's `fetchCategories` stores
`res.data.data` unchecked, so a bare-array body yields no decoded collection
while the enveloped body of the same list yields it. -/
theorem upload_page_rejects_bare_array :
    uploadDecodeCategories (CatBody.bareArr [catEx]) = none ∧
    uploadDecodeCategories (CatBody.envel [catEx]) = some [catEx] ∧
    decodeCategoriesBody (CatBody.bareArr [catEx]) = [catEx] := by
  decide

/-- C8 (amended): the Categories and ImageListing consumers decode the
enveloped and bare shapes of the same list to the same collection; the
ImageUpload consumer only handles the enveloped shape and decodes a
bare-array body to nothing. -/
theorem category_decoders_shape_tolerance (cats : List Category) :
    decodeCategoriesBody (CatBody.envel cats) = decodeCategoriesBody (CatBody.bareArr cats) ∧
    decodeCategoriesBody (CatBody.envel cats) = cats ∧
    uploadDecodeCategories (CatBody.envel cats) = some cats ∧
    uploadDecodeCategories (CatBody.bareArr cats) = none :=
  ⟨rfl, rfl, rfl, rfl⟩

/-- C9: a selected file strictly larger than 10 * 1024 * 1024 bytes is
rejected client-side with the size error and no network request, and a
category save with an empty or whitespace-only name is rejected with the
inline modal error, changing nothing else and issuing no request. -/
theorem client_side_validation_blocks_request (su : UploadState) (f : JsFile) (sc : CatState)
    (o : ReqOutcome) (hf : 10 * 1024 * 1024 < f.size) (hn : sc.categoryName.jsTrim = "") :
    (handleImageChange su (some f)).1.error = "File size must be less than 10MB" ∧
    (handleImageChange su (some f)).2 = [] ∧
    handleSave sc o = { sc with modalError := "Category name is required" } ∧
    saveRequest sc = none := by
  refine ⟨?_, ?_, ?_, ?_⟩ <;> simp [handleImageChange, hf, handleSave, hn, saveRequest]

/-- C9 witness: the validations on a concrete oversized file and a concrete
whitespace-only category name. -/
theorem client_side_validation_blocks_request_witness :
    10 * 1024 * 1024 < bigFile.size ∧
    whitespaceNameState.categoryName.jsTrim = "" ∧
    saveRequest whitespaceNameState = none :=
  ⟨by decide, by decide,
   (client_side_validation_blocks_request uploadStateEx bigFile whitespaceNameState
      (ReqOutcome.err none) (by decide) (by decide)).2.2.2⟩

/-- C10: rejecting an oversized file changes only the error message — the
staged image, its preview, the title, the category, the flags and the
request list (empty) are all exactly as before, so a previously staged valid
file remains submittable. -/
theorem oversize_rejection_preserves_form_state (s : UploadState) (f : JsFile)
    (hf : 10 * 1024 * 1024 < f.size) :
    (handleImageChange s (some f)).1 = { s with error := "File size must be less than 10MB" } ∧
    (handleImageChange s (some f)).1.image = s.image ∧
    (handleImageChange s (some f)).1.preview = s.preview ∧
    (handleImageChange s (some f)).1.title = s.title ∧
    (handleImageChange s (some f)).1.category = s.category ∧
    (handleImageChange s (some f)).2 = [] := by
  refine ⟨?_, ?_, ?_, ?_, ?_, ?_⟩ <;> simp [handleImageChange, hf]

/-- C10 witness: on a form with a valid file already staged, the oversized
selection leaves the staged file in place. -/
theorem oversize_rejection_preserves_form_state_witness :
    10 * 1024 * 1024 < bigFile.size ∧
    (handleImageChange uploadStateEx (some bigFile)).1.image = uploadStateEx.image ∧
    uploadStateEx.image = some smallFile :=
  ⟨by decide,
   (oversize_rejection_preserves_form_state uploadStateEx bigFile (by decide)).2.1,
   rfl⟩
